import Mathlib

/-!
Verification of the metric-calculation core of the staking-rewards dashboard
(`price.py`).  Python float arithmetic is modelled by exact real arithmetic
over `ℝ` (the spec's scenario values are stated in exact arithmetic);
operations that raise in Python (`ZeroDivisionError` from a zero divisor,
`ValueError` from `float()` on a non-numeric string, `math.sqrt` of a
negative number raising a math-domain `ValueError`, a missing column raising
`KeyError`) are modelled by `Except PyError`.  Because `ℝ` is noncomputable,
the definitions touching it are `noncomputable`; all string- and
list-manipulating parts are executable.
-/

/-- The failure modes of the Python code: `zeroDivisionError` is Python's
`ZeroDivisionError` (the spec's `DivisionByZeroError`), `valueError` is the
`ValueError` raised by `float()` on a non-numeric string, `mathDomainError`
is the `ValueError: math domain error` raised by `math.sqrt` on a negative
argument, `keyError` a missing-column `KeyError`. -/
inductive PyError where
  | zeroDivisionError
  | valueError
  | mathDomainError
  | keyError
  deriving DecidableEq, Repr

/-- The dictionary returned by `calculations` (price.py lines 90-101),
one field per key in the order the source lists them. -/
structure Metrics where
  buyback_nominal_amount : ℝ
  cash_dividend : ℝ
  ordinary_shares : ℝ
  cash_dividend_yield : ℝ
  scrip_dividend : ℝ
  scrip_dividend_yield : ℝ
  buyback_yield : ℝ
  preferential_shares_staker : ℝ
  ordinary_shares_staker : ℝ
  participant_dilution : ℝ

/-- price.py line 66: `earnings * (base_fees / 100)`. -/
noncomputable def buyback_nominal_amount (earnings base_fees : ℝ) : ℝ :=
  earnings * (base_fees / 100)

/-- price.py line 67: `earnings * (1 - (base_fees / 100))`. -/
noncomputable def cash_dividend (earnings base_fees : ℝ) : ℝ :=
  earnings * (1 - base_fees / 100)

/-- price.py line 70: `circulating_supply * (preferential_shares / 100)`. -/
noncomputable def preferential_shares_amount (circulating_supply preferential_shares : ℝ) : ℝ :=
  circulating_supply * (preferential_shares / 100)

/-- price.py line 71: `circulating_supply * (1 - (preferential_shares / 100))`. -/
noncomputable def ordinary_shares (circulating_supply preferential_shares : ℝ) : ℝ :=
  circulating_supply * (1 - preferential_shares / 100)

/-- price.py line 74: `cash_dividend / (price * preferential_shares_amount)`. -/
noncomputable def cash_dividend_yield (cash_dividend price preferential_shares_amount : ℝ) : ℝ :=
  cash_dividend / (price * preferential_shares_amount)

/-- price.py line 77: `inflation_factor * math.sqrt(preferential_shares_amount)`. -/
noncomputable def scrip_dividend (inflation_factor preferential_shares_amount : ℝ) : ℝ :=
  inflation_factor * Real.sqrt preferential_shares_amount

/-- price.py line 78: `scrip_dividend / preferential_shares_amount`. -/
noncomputable def scrip_dividend_yield (scrip_dividend preferential_shares_amount : ℝ) : ℝ :=
  scrip_dividend / preferential_shares_amount

/-- price.py line 81: `buyback_nominal_amount / (circulating_supply * price)`. -/
noncomputable def buyback_yield (buyback_nominal_amount circulating_supply price : ℝ) : ℝ :=
  buyback_nominal_amount / (circulating_supply * price)

/-- price.py line 84: `cash_dividend_yield + scrip_dividend_yield`. -/
noncomputable def preferential_shares_staker (cash_dividend_yield scrip_dividend_yield : ℝ) : ℝ :=
  cash_dividend_yield + scrip_dividend_yield

/-- price.py line 85: `(cash_dividend_yield - buyback_yield) / buyback_yield`. -/
noncomputable def ordinary_shares_staker (cash_dividend_yield buyback_yield : ℝ) : ℝ :=
  (cash_dividend_yield - buyback_yield) / buyback_yield

/-- price.py line 88: `abs(preferential_shares_staker - ordinary_shares_staker)`. -/
noncomputable def participant_dilution (preferential_shares_staker ordinary_shares_staker : ℝ) : ℝ :=
  |preferential_shares_staker - ordinary_shares_staker|

/-- The ten values of the returned dictionary, as computed by
price.py lines 66-101 when no operation raises. -/
noncomputable def metricsOf (price circulating_supply earnings base_fees preferential_shares
    inflation_factor : ℝ) : Metrics :=
  let buyback_nominal_amount := buyback_nominal_amount earnings base_fees
  let cash_dividend := cash_dividend earnings base_fees
  let preferential_shares_amount := preferential_shares_amount circulating_supply preferential_shares
  let ordinary_shares := ordinary_shares circulating_supply preferential_shares
  let cash_dividend_yield := cash_dividend_yield cash_dividend price preferential_shares_amount
  let scrip_dividend := scrip_dividend inflation_factor preferential_shares_amount
  let scrip_dividend_yield := scrip_dividend_yield scrip_dividend preferential_shares_amount
  let buyback_yield := buyback_yield buyback_nominal_amount circulating_supply price
  let preferential_shares_staker := preferential_shares_staker cash_dividend_yield scrip_dividend_yield
  let ordinary_shares_staker := ordinary_shares_staker cash_dividend_yield buyback_yield
  let participant_dilution := participant_dilution preferential_shares_staker ordinary_shares_staker
  ⟨buyback_nominal_amount, cash_dividend, ordinary_shares, cash_dividend_yield, scrip_dividend,
   scrip_dividend_yield, buyback_yield, preferential_shares_staker, ordinary_shares_staker,
   participant_dilution⟩

/-- price.py lines 48-101, `calculations`.  The guards model, in the source's
evaluation order, the operations that raise in Python: the division at line 74
(divisor `price * preferential_shares_amount`), `math.sqrt` at line 77
(negative argument), the division at line 78 (divisor
`preferential_shares_amount`), the division at line 81 (divisor
`circulating_supply * price`) and the division at line 85 (divisor
`buyback_yield`).  When none raises, the returned dictionary is `metricsOf`. -/
noncomputable def calculations (price circulating_supply earnings base_fees preferential_shares
    inflation_factor : ℝ) : Except PyError Metrics :=
  if price * preferential_shares_amount circulating_supply preferential_shares = 0 then
    .error .zeroDivisionError
  else if preferential_shares_amount circulating_supply preferential_shares < 0 then
    .error .mathDomainError
  else if preferential_shares_amount circulating_supply preferential_shares = 0 then
    .error .zeroDivisionError
  else if circulating_supply * price = 0 then
    .error .zeroDivisionError
  else if buyback_yield (buyback_nominal_amount earnings base_fees) circulating_supply price = 0 then
    .error .zeroDivisionError
  else
    .ok (metricsOf price circulating_supply earnings base_fees preferential_shares inflation_factor)

/-- When price, supply, earnings, base fee and preferential share are all
positive, none of the guarded operations raises and `calculations` returns
the dictionary. -/
theorem calculations_ok_of_pos (price circulating_supply earnings base_fees preferential_shares
    inflation_factor : ℝ) (hp : 0 < price) (hc : 0 < circulating_supply) (he : 0 < earnings)
    (hbf : 0 < base_fees) (hpf : 0 < preferential_shares) :
    calculations price circulating_supply earnings base_fees preferential_shares inflation_factor =
      .ok (metricsOf price circulating_supply earnings base_fees preferential_shares
        inflation_factor) := by
  have hpsa : 0 < preferential_shares_amount circulating_supply preferential_shares := by
    unfold preferential_shares_amount
    positivity
  have hby : buyback_yield (buyback_nominal_amount earnings base_fees) circulating_supply price ≠ 0 := by
    unfold buyback_yield buyback_nominal_amount
    positivity
  unfold calculations
  split_ifs with h1 h2 h3 h4
  · exact absurd h1 (mul_ne_zero hp.ne' hpsa.ne')
  · exact absurd h2 (not_lt.mpr hpsa.le)
  · exact absurd h3 hpsa.ne'
  · exact absurd h4 (mul_ne_zero hc.ne' hp.ne')
  · rfl

/-- Evaluating `|x|` at a concrete nonnegative value. -/
theorem abs_eval {x y : ℝ} (h : x = y) (hy : 0 ≤ y) : |x| = y := by
  rw [h, abs_of_nonneg hy]

theorem sqrt_scenario1 : Real.sqrt ((1000000 : ℝ) * (25 / 100)) = 500 := by
  rw [show ((1000000 : ℝ) * (25 / 100)) = 500 ^ 2 by norm_num]
  exact Real.sqrt_sq (by norm_num)

/-- The metrics of the spec's Scenario 1, fully evaluated in exact arithmetic. -/
noncomputable def scenario1Metrics : Metrics :=
  ⟨45000, 5000, 750000, 0.0002, 83150, 0.3326, 0.00045, 0.3328, -(5 / 9), 4997 / 5625⟩

theorem metricsOf_scenario1 :
    metricsOf 100 1000000 50000 90 25 (1663 / 10) = scenario1Metrics := by
  simp only [metricsOf, scenario1Metrics, buyback_nominal_amount, cash_dividend,
    preferential_shares_amount, ordinary_shares, cash_dividend_yield, scrip_dividend,
    scrip_dividend_yield, buyback_yield, preferential_shares_staker, ordinary_shares_staker,
    participant_dilution, sqrt_scenario1, Metrics.mk.injEq]
  refine ⟨by norm_num, by norm_num, by norm_num, by norm_num, by norm_num, by norm_num,
    by norm_num, by norm_num, by norm_num, ?_⟩
  exact abs_eval (by norm_num) (by norm_num)

theorem calculations_scenario1 :
    calculations 100 1000000 50000 90 25 (1663 / 10) = .ok scenario1Metrics := by
  rw [calculations_ok_of_pos 100 1000000 50000 90 25 (1663 / 10) (by norm_num) (by norm_num)
    (by norm_num) (by norm_num) (by norm_num), metricsOf_scenario1]

/-! ## The value formatter (price.py lines 25-46, `format_value`)

Python's fixed-point string formatting is modelled on the exact real value:
`f"{x:,.Nf}"` rounds `x` to `N` decimal places with round-half-to-even and
groups the integer digits in threes with commas, and `f"{x:.Nf}"` does the
same without grouping. -/

/-- Insert a comma after every group of three digits, counting from the right;
the argument is the digit string reversed. -/
def groupRev : List Char → List Char
  | a :: b :: c :: d :: rest => a :: b :: c :: ',' :: groupRev (d :: rest)
  | l => l

/-- Thousands grouping of a digit string, as the `,` option of a Python
format spec does. -/
def groupThousands (s : String) : String :=
  ⟨(groupRev s.data.reverse).reverse⟩

/-- Left-pad a string with zeros to the given length. -/
def padZeros (n : ℕ) (s : String) : String :=
  ⟨List.replicate (n - s.length) '0' ++ s.data⟩

/-- The digit string of `m` with a decimal point `n` digits from the right
(`m` is the value scaled by `10 ^ n`), optionally thousands-grouped. -/
def renderFixed (m : ℕ) (n : ℕ) (comma : Bool) : String :=
  let ip := toString (m / 10 ^ n)
  let ipStr := if comma then groupThousands ip else ip
  if n = 0 then ipStr else ipStr ++ "." ++ padZeros n (toString (m % 10 ^ n))

/-- Round to the nearest integer, ties to the even integer (the rounding of
Python's fixed-point float formatting). -/
noncomputable def roundHalfEven (x : ℝ) : ℤ :=
  if x - (⌊x⌋ : ℝ) < 1 / 2 then ⌊x⌋
  else if (1 : ℝ) / 2 < x - (⌊x⌋ : ℝ) then ⌊x⌋ + 1
  else if ⌊x⌋ % 2 = 0 then ⌊x⌋ else ⌊x⌋ + 1

/-- `f"{x:,.nf}"` (with `comma`) or `f"{x:.nf}"` (without): the value rounded
to `n` decimal places rendered with a leading minus for a negative value. -/
noncomputable def formatFixed (x : ℝ) (n : ℕ) (comma : Bool) : String :=
  (if x < 0 then "-" else "") ++ renderFixed (roundHalfEven (x * 10 ^ n)).natAbs n comma

/-- Python's `str.lower()` on the column names in play (ASCII): map
`Char.toLower` over the characters. -/
def lowercase (s : String) : String :=
  ⟨s.data.map Char.toLower⟩

/-- price.py lines 25-46, `format_value`: pick the formatting rule by
case-insensitive exact match of the column name against the three tables,
falling through to the default two-decimal format. -/
noncomputable def format_value (value : ℝ) (column : String) : String :=
  if lowercase column ∈ ["scrip_dividend", "price", "earnings_per_share", "price_to_earnings",
      "scrip dividend"] then
    "$" ++ formatFixed value 3 true
  else if lowercase column ∈ ["scrip_dividend_yield", "reward_rate", "cash dividend yield",
      "scrip dividend yield", "buyback yield", "preferential shares staker",
      "ordinary shares staker", "participant dilution"] then
    formatFixed (value * 100) 2 false ++ "%"
  else if lowercase column ∈ ["circulating_supply", "buyback_nominal_amount", "cash dividend",
      "buyback nominal amount", "earnings", "ordinary shares"] then
    formatFixed (value / 1000000) 2 true ++ "M"
  else
    formatFixed value 2 true

/-- `roundHalfEven` at a value lying in `[n, n + 1/2)` is `n`. -/
theorem roundHalfEven_eq_floor {x : ℝ} {n : ℤ} (h1 : (n : ℝ) ≤ x) (h2 : x < n + 1 / 2) :
    roundHalfEven x = n := by
  have hfl : ⌊x⌋ = n := Int.floor_eq_iff.mpr ⟨h1, by linarith⟩
  unfold roundHalfEven
  rw [hfl, if_pos (by linarith)]

/-- `roundHalfEven` at a value lying in `(n + 1/2, n + 1)` is `n + 1`. -/
theorem roundHalfEven_eq_ceil {x : ℝ} {n : ℤ} (h1 : (n : ℝ) + 1 / 2 < x) (h2 : x < n + 1) :
    roundHalfEven x = n + 1 := by
  have hfl : ⌊x⌋ = n := Int.floor_eq_iff.mpr ⟨by linarith, h2⟩
  unfold roundHalfEven
  rw [hfl, if_neg (by linarith), if_pos (by linarith)]

/-! ## The per-asset aggregator (price.py lines 103-179)

A single-asset slice of the price DataFrame is its asset name together with
the row of numeric values of the remaining columns (the `.values[0]` row the
source reads); a missing column raises `KeyError`. -/

structure AssetSlice where
  assets : String
  row : List (String × ℝ)

/-- A value of the raw (unformatted) metrics dictionary: the asset name is a
string, everything else a number. -/
inductive RawVal where
  | str (s : String)
  | num (x : ℝ)

/-- `asset_data[c].values[0]`: the value of column `c`, `KeyError` when the
column is missing. -/
def getCol {β : Type} (row : List (String × β)) (c : String) : Except PyError β :=
  match row.lookup c with
  | some v => .ok v
  | none => .error PyError.keyError

/-- price.py lines 103-147, `display_metrics_as_formated_list`: read price,
circulating supply and earnings, run `calculations`, then build the
dictionary: the asset name, every input column except `Market Cap` formatted
with `format_value`, and seven of the calculated metrics formatted with
`format_value`. -/
noncomputable def display_metrics_as_formated_list (asset_data : AssetSlice)
    (base_fees preferential_shares inflation_factor : ℝ) :
    Except PyError (List (String × String)) :=
  match getCol asset_data.row "price" with
  | .error e => .error e
  | .ok price =>
  match getCol asset_data.row "circulating_supply" with
  | .error e => .error e
  | .ok circulating_supply =>
  match getCol asset_data.row "Earnings" with
  | .error e => .error e
  | .ok earnings =>
    match calculations price circulating_supply earnings base_fees preferential_shares
        inflation_factor with
    | .ok calculated_data =>
      .ok ((("Asset", asset_data.assets) ::
        (asset_data.row.filter fun p => p.1 != "Market Cap").map
          (fun p => (p.1, format_value p.2 p.1))) ++
        [("Cash Dividend", format_value calculated_data.cash_dividend "Cash Dividend"),
         ("Cash Dividend Yield", format_value calculated_data.cash_dividend_yield
            "Cash Dividend Yield"),
         ("Preferential Shares Staker", format_value calculated_data.preferential_shares_staker
            "Preferential Shares Staker"),
         ("Scrip Dividend", format_value calculated_data.scrip_dividend "Scrip Dividend"),
         ("Scrip Dividend Yield", format_value calculated_data.scrip_dividend_yield
            "Scrip Dividend Yield"),
         ("Ordinary Shares Staker", format_value calculated_data.ordinary_shares_staker
            "Ordinary Shares Staker"),
         ("Participant Dilution", format_value calculated_data.participant_dilution
            "Participant Dilution")])
    | .error e => .error e

/-- price.py lines 149-179, `display_metrics_as_list`: the same dictionary
with the raw (unformatted) values. -/
noncomputable def display_metrics_as_list (asset_data : AssetSlice)
    (base_fees preferential_shares inflation_factor : ℝ) :
    Except PyError (List (String × RawVal)) :=
  match getCol asset_data.row "price" with
  | .error e => .error e
  | .ok price =>
  match getCol asset_data.row "circulating_supply" with
  | .error e => .error e
  | .ok circulating_supply =>
  match getCol asset_data.row "Earnings" with
  | .error e => .error e
  | .ok earnings =>
    match calculations price circulating_supply earnings base_fees preferential_shares
        inflation_factor with
    | .ok calculated_data =>
      .ok ((("Asset", RawVal.str asset_data.assets) ::
        (asset_data.row.filter fun p => p.1 != "Market Cap").map
          (fun p => (p.1, RawVal.num p.2))) ++
        [("Cash Dividend", RawVal.num calculated_data.cash_dividend),
         ("Cash Dividend Yield", RawVal.num calculated_data.cash_dividend_yield),
         ("Preferential Shares Staker", RawVal.num calculated_data.preferential_shares_staker),
         ("Scrip Dividend", RawVal.num calculated_data.scrip_dividend),
         ("Scrip Dividend Yield", RawVal.num calculated_data.scrip_dividend_yield),
         ("Ordinary Shares Staker", RawVal.num calculated_data.ordinary_shares_staker),
         ("Participant Dilution", RawVal.num calculated_data.participant_dilution)])
    | .error e => .error e

/-- How a raw dictionary value appears in the formatted dictionary: a number
is formatted with `format_value` under its key, the asset-name string is kept
as it is. -/
noncomputable def formatRawVal (column : String) : RawVal → String
  | .str s => s
  | .num x => format_value x column

/-- The keys of the seven calculated metrics both aggregator dictionaries
carry. -/
def calcKeys : List String :=
  ["Cash Dividend", "Cash Dividend Yield", "Preferential Shares Staker", "Scrip Dividend",
   "Scrip Dividend Yield", "Ordinary Shares Staker", "Participant Dilution"]

/-- Whether an aggregator result carries every key of `ks` (vacuously so for
an aborted computation). -/
def hasKeys {β : Type} (ks : List String) : Except PyError (List (String × β)) → Bool
  | .error _ => true
  | .ok m => ks.all fun k => (m.lookup k).isSome

theorem lookup_isSome_append {β : Type} (a : String) (l₁ l₂ : List (String × β))
    (h : (l₂.lookup a).isSome = true) : ((l₁ ++ l₂).lookup a).isSome = true := by
  induction l₁ with
  | nil => simpa using h
  | cons p l ih =>
    rcases p with ⟨k, v⟩
    cases hk : a == k with
    | true => simp [List.lookup, hk]
    | false => simpa [List.lookup, hk] using ih

theorem hasKeys_calc_append {β : Type} (l₁ : List (String × β)) (v1 v2 v3 v4 v5 v6 v7 : β) :
    hasKeys calcKeys (.ok (l₁ ++
      [("Cash Dividend", v1), ("Cash Dividend Yield", v2), ("Preferential Shares Staker", v3),
       ("Scrip Dividend", v4), ("Scrip Dividend Yield", v5), ("Ordinary Shares Staker", v6),
       ("Participant Dilution", v7)])) = true := by
  simp only [hasKeys, calcKeys, List.all_cons, List.all_nil, Bool.and_eq_true, Bool.and_true]
  refine ⟨?_, ?_, ?_, ?_, ?_, ?_, ?_⟩ <;>
    exact lookup_isSome_append _ l₁ _ (by simp [List.lookup])

/-! ## The input table and report generation (price.py lines 6-23 and 184-209)

A cell of the price table is either a number or a string (pandas keeps a
column holding any string as object dtype); the table is the list of column
names after the leading `assets` column together with one row per asset. -/

inductive Cell where
  | num (x : ℝ)
  | str (s : String)

structure Table where
  columns : List String
  rows : List (String × List Cell)

/-- `str.replace(',', '.')` for the single-character arguments the source
uses: replace every comma by a period. -/
def commaToDot (s : String) : String :=
  ⟨s.data.map fun ch => if ch = ',' then '.' else ch⟩

/-- The numeric value of a digit string. -/
def digitsVal (l : List Char) : ℕ :=
  l.foldl (fun a c => 10 * a + (c.toNat - 48)) 0

/-- Split a character list at its first period. -/
def splitDot : List Char → List Char × Option (List Char)
  | [] => ([], none)
  | '.' :: rest => ([], some rest)
  | ch :: rest =>
    match splitDot rest with
    | (i, f) => (ch :: i, f)

/-- Python's `float()` on the plain decimal literals the table holds: an
optional sign, digits with at most one period and at least one digit;
anything else (in particular a second period or a non-digit character) is
`none`, modelling the `ValueError` that `float()` raises.  (Exponent,
infinity and nan literals, underscores and surrounding whitespace, which
`float()` also accepts, do not occur in this data and are not modelled.) -/
def pythonFloat (s : String) : Option ℚ :=
  let (neg, body) :=
    match s.data with
    | '-' :: rest => (true, rest)
    | '+' :: rest => (false, rest)
    | l => (false, l)
  let signed : ℚ → ℚ := fun q => if neg then -q else q
  match splitDot body with
  | (ipart, none) =>
    if ipart ≠ [] ∧ ipart.all Char.isDigit then some (signed (digitsVal ipart)) else none
  | (ipart, some fpart) =>
    if (ipart ≠ [] ∨ fpart ≠ []) ∧ ipart.all Char.isDigit ∧ fpart.all Char.isDigit then
      some (signed ((digitsVal ipart : ℚ) + (digitsVal fpart : ℚ) / 10 ^ fpart.length))
    else none

/-- price.py line 21, the conversion lambda: a string cell is parsed with
`float(str(x).replace(',', '.'))` (raising `ValueError` when non-numeric),
any other cell is kept as it is. -/
noncomputable def cleanCell : Cell → Except PyError Cell
  | .num x => .ok (.num x)
  | .str s =>
    match pythonFloat (commaToDot s) with
    | some q => .ok (.num (q : ℝ))
    | none => .error PyError.valueError

noncomputable def cleanCells : List Cell → Except PyError (List Cell)
  | [] => .ok []
  | c :: cs =>
    match cleanCell c, cleanCells cs with
    | .ok c', .ok cs' => .ok (c' :: cs')
    | .error e, _ => .error e
    | _, .error e => .error e

noncomputable def cleanRows : List (String × List Cell) → Except PyError (List (String × List Cell))
  | [] => .ok []
  | r :: rs =>
    match cleanCells r.2, cleanRows rs with
    | .ok cs, .ok rs' => .ok ((r.1, cs) :: rs')
    | .error e, _ => .error e
    | _, .error e => .error e

/-- price.py lines 6-23, `clean_numeric_columns`.  The source walks the
columns after `assets` left to right and converts the string entries of each
object-dtype column; converting a non-string entry is the identity and a
column without string entries is left untouched, so this is the same as
converting every cell (the traversal order differs, but every failure raises
the same `ValueError`, so the result does not). -/
noncomputable def clean_numeric_columns (t : Table) : Except PyError Table :=
  match cleanRows t.rows with
  | .ok rows => .ok ⟨t.columns, rows⟩
  | .error e => .error e

/-- The distinct asset names in order of first appearance,
`df_price['assets'].unique()`. -/
def uniqueInOrder (l : List String) : List String :=
  l.foldl (fun acc a => if a ∈ acc then acc else acc ++ [a]) []

/-- After cleaning, every cell is numeric; reading a row for the
calculations requires the numbers. -/
noncomputable def expectNums : List Cell → Except PyError (List ℝ)
  | [] => .ok []
  | .num x :: cs =>
    match expectNums cs with
    | .ok xs => .ok (x :: xs)
    | .error e => .error e
  | .str _ :: _ => .error PyError.valueError

/-- price.py lines 190-202, the per-asset loop: for each distinct asset name
take its rows (an empty selection is skipped with a notice), read the first
row, and collect the formatted and the raw dictionaries; an exception in
either aborts the whole loop. -/
noncomputable def assetsLoop (cleaned : Table) :
    List String → Except PyError (List (List (String × String)) × List (List (String × RawVal)))
  | [] => .ok ([], [])
  | asset :: rest =>
    match cleaned.rows.filter (fun r => r.1 == asset) with
    | [] => assetsLoop cleaned rest
    | r :: _ =>
      match expectNums r.2 with
      | .error e => .error e
      | .ok values =>
        match display_metrics_as_formated_list ⟨r.1, cleaned.columns.zip values⟩ 90 25
            (1663 / 10) with
        | .error e => .error e
        | .ok metrics =>
          match display_metrics_as_list ⟨r.1, cleaned.columns.zip values⟩ 90 25 (1663 / 10) with
          | .error e => .error e
          | .ok metrics_unformated =>
            match assetsLoop cleaned rest with
            | .error e => .error e
            | .ok (ds, ps) => .ok (metrics :: ds, metrics_unformated :: ps)

/-- price.py lines 184-209, `get_assets_data`, up to the construction of the
two output tables: clean the numeric columns, run the per-asset loop with
the hard-coded parameters `base_fees=90, preferential_shares=25,
inflation_factor=166.3`, then drop the `Ordinary Shares Staker` column from
both.  The Streamlit/Plotly rendering of lines 211-239 is presentation and
not modelled. -/
noncomputable def get_assets_data (df_price : Table) :
    Except PyError (List (List (String × String)) × List (List (String × RawVal))) :=
  match clean_numeric_columns df_price with
  | .error e => .error e
  | .ok cleaned =>
    match assetsLoop cleaned (uniqueInOrder (cleaned.rows.map Prod.fst)) with
    | .error e => .error e
    | .ok (all_assets_data, all_assets_data_plots) =>
      .ok (all_assets_data.map (fun m => m.filter fun p => p.1 != "Ordinary Shares Staker"),
           all_assets_data_plots.map (fun m => m.filter fun p => p.1 != "Ordinary Shares Staker"))

theorem cleanCell_error_eq {c : Cell} {e : PyError} (h : cleanCell c = .error e) :
    e = PyError.valueError := by
  cases c with
  | num x => simp [cleanCell] at h
  | str s =>
    cases hq : pythonFloat (commaToDot s) with
    | none => simp [cleanCell, hq] at h; exact h.symm
    | some q => simp [cleanCell, hq] at h

theorem cleanCells_error_of_mem {c : Cell} {l : List Cell} (hc : c ∈ l)
    (he : cleanCell c = .error PyError.valueError) :
    cleanCells l = .error PyError.valueError := by
  induction l with
  | nil => cases hc
  | cons a l ih =>
    rcases List.mem_cons.mp hc with h | h
    · subst h
      simp only [cleanCells, he]
    · cases ha : cleanCell a with
      | error e => simp only [cleanCells, ha, cleanCell_error_eq ha]
      | ok c' => simp only [cleanCells, ha, ih h]

theorem cleanCells_error_eq {l : List Cell} {e : PyError}
    (h : cleanCells l = .error e) : e = PyError.valueError := by
  induction l with
  | nil => simp [cleanCells] at h
  | cons a l ih =>
    cases ha : cleanCell a with
    | error e' =>
      simp only [cleanCells, ha] at h
      cases h
      exact cleanCell_error_eq ha
    | ok c' =>
      cases hl : cleanCells l with
      | error e' =>
        simp only [cleanCells, ha, hl] at h
        cases h
        exact ih hl
      | ok cs' => simp [cleanCells, ha, hl] at h

theorem cleanRows_error_of_mem {r : String × List Cell} {rs : List (String × List Cell)}
    (hr : r ∈ rs) (he : cleanCells r.2 = .error PyError.valueError) :
    cleanRows rs = .error PyError.valueError := by
  induction rs with
  | nil => cases hr
  | cons a l ih =>
    rcases List.mem_cons.mp hr with h | h
    · subst h
      simp only [cleanRows, he]
    · cases ha : cleanCells a.2 with
      | error e => simp only [cleanRows, ha, cleanCells_error_eq ha]
      | ok cs => simp only [cleanRows, ha, ih h]

/-! ## Shared evaluation facts -/

theorem metricsOf_cash_dividend (p c e b f i : ℝ) :
    (metricsOf p c e b f i).cash_dividend = cash_dividend e b := rfl

theorem metricsOf_buyback_nominal_amount (p c e b f i : ℝ) :
    (metricsOf p c e b f i).buyback_nominal_amount = buyback_nominal_amount e b := rfl

theorem metricsOf_ordinary_shares (p c e b f i : ℝ) :
    (metricsOf p c e b f i).ordinary_shares = ordinary_shares c f := rfl

/-- A single-asset slice with the Scenario 1 numbers. -/
noncomputable def scenario1Slice : AssetSlice :=
  ⟨"BTC", [("price", 100), ("circulating_supply", 1000000), ("Earnings", 50000)]⟩

/-- A price table whose second asset's earnings cell is the non-numeric
string "abc"; every other cell is well-formed. -/
noncomputable def badEarningsTable : Table :=
  ⟨["price", "circulating_supply", "Earnings"],
   [("BTC", [Cell.num 100, Cell.num 1000000, Cell.num 50000]),
    ("ETH", [Cell.num 10, Cell.num 1000, Cell.str "abc"])]⟩

/-! ## The claims -/

/-- C1: For price=100, circulating_supply=1000000, earnings=50000,
base_fee_percent=90, preferential_share_percent=25, inflation_factor=166.3,
`calculations` returns buyback_nominal_amount=45000, cash_dividend=5000,
ordinary_shares=750000, cash_dividend_yield=0.0002, scrip_dividend=83150 and
scrip_dividend_yield=0.3326, with the internal preferential_shares_amount
equal to 250000 (the remaining four fields are buyback_yield=0.00045,
preferential_shares_staker=0.3328, ordinary_shares_staker=-5/9 and
participant_dilution=4997/5625). -/
theorem claim1_scenario1_values :
    calculations 100 1000000 50000 90 25 (1663 / 10) =
      .ok ⟨45000, 5000, 750000, 0.0002, 83150, 0.3326, 0.00045, 0.3328, -(5 / 9), 4997 / 5625⟩ ∧
    preferential_shares_amount 1000000 25 = 250000 := by
  constructor
  · exact calculations_scenario1
  · unfold preferential_shares_amount
    norm_num

/-- C2: For every input with base_fee_percent=0 and positive price,
circulating supply, earnings and preferential share percent, the buyback
yield computes to 0 and `calculations` raises the division-by-zero error at
the subsequent ordinary_shares_staker step (the spec's `DivisionByZeroError`
is Python's `ZeroDivisionError`); no metrics dictionary — and in particular
no Infinity or NaN — is returned. -/
theorem claim2_base_fee_zero_raises (price cs e pf infl : ℝ) (_hp : 0 < price) (hc : 0 < cs)
    (_he : 0 < e) (hpf : 0 < pf) :
    buyback_yield (buyback_nominal_amount e 0) cs price = 0 ∧
    calculations price cs e 0 pf infl = .error PyError.zeroDivisionError := by
  have hpsa : 0 < preferential_shares_amount cs pf := by
    unfold preferential_shares_amount
    positivity
  have hby : buyback_yield (buyback_nominal_amount e 0) cs price = 0 := by
    unfold buyback_yield buyback_nominal_amount
    norm_num
  refine ⟨hby, ?_⟩
  unfold calculations
  split_ifs with h1 h2 h3 h4
  · rfl
  · exact absurd h2 (not_lt.mpr hpsa.le)
  · rfl
  · rfl
  · rfl

/-- Witness for C2 at price=100, circulating_supply=1000000, earnings=50000,
preferential_share_percent=25, inflation_factor=166.3. -/
theorem claim2_witness :
    ((0 : ℝ) < 100 ∧ (0 : ℝ) < 1000000 ∧ (0 : ℝ) < 50000 ∧ (0 : ℝ) < 25) ∧
    buyback_yield (buyback_nominal_amount 50000 0) 1000000 100 = 0 ∧
    calculations 100 1000000 50000 0 25 (1663 / 10) = .error PyError.zeroDivisionError :=
  ⟨⟨by norm_num, by norm_num, by norm_num, by norm_num⟩,
   claim2_base_fee_zero_raises 100 1000000 50000 25 (1663 / 10) (by norm_num) (by norm_num)
     (by norm_num) (by norm_num)⟩

/-- C3: For all positive price, circulating supply and earnings and
base_fee_percent, preferential_share_percent in (0,100), the cash_dividend
and buyback_nominal_amount of the dictionary `calculations` returns sum
exactly to earnings. -/
theorem claim3_cash_plus_buyback_eq_earnings (price cs e bf pf infl : ℝ) (hp : 0 < price)
    (hc : 0 < cs) (he : 0 < e) (hbf0 : 0 < bf) (_hbf1 : bf < 100) (hpf0 : 0 < pf)
    (_hpf1 : pf < 100) (m : Metrics) (hm : calculations price cs e bf pf infl = .ok m) :
    m.cash_dividend + m.buyback_nominal_amount = e := by
  rw [calculations_ok_of_pos price cs e bf pf infl hp hc he hbf0 hpf0] at hm
  injection hm with hm
  rw [← hm, metricsOf_cash_dividend, metricsOf_buyback_nominal_amount]
  unfold cash_dividend buyback_nominal_amount
  ring

/-- Witness for C3 at the Scenario 1 input. -/
theorem claim3_witness :
    ((0 : ℝ) < 100 ∧ (0 : ℝ) < 1000000 ∧ (0 : ℝ) < 50000 ∧ (0 : ℝ) < 90 ∧ (90 : ℝ) < 100 ∧
      (0 : ℝ) < 25 ∧ (25 : ℝ) < 100 ∧
      calculations 100 1000000 50000 90 25 (1663 / 10) = .ok scenario1Metrics) ∧
    scenario1Metrics.cash_dividend + scenario1Metrics.buyback_nominal_amount = 50000 :=
  ⟨⟨by norm_num, by norm_num, by norm_num, by norm_num, by norm_num, by norm_num, by norm_num,
     calculations_scenario1⟩,
   claim3_cash_plus_buyback_eq_earnings 100 1000000 50000 90 25 (1663 / 10) (by norm_num)
     (by norm_num) (by norm_num) (by norm_num) (by norm_num) (by norm_num) (by norm_num)
     scenario1Metrics calculations_scenario1⟩

/-- C4: For all positive circulating supply and preferential_share_percent
in (0,100), the ordinary_shares of the dictionary `calculations` returns and
the internal preferential_shares_amount sum exactly to the circulating
supply (the partition needs no positivity at all: it holds whenever
`calculations` returns a dictionary). -/
theorem claim4_shares_partition (price cs e bf pf infl : ℝ) (_hc : 0 < cs) (_hpf0 : 0 < pf)
    (_hpf1 : pf < 100) (m : Metrics) (hm : calculations price cs e bf pf infl = .ok m) :
    m.ordinary_shares + preferential_shares_amount cs pf = cs := by
  unfold calculations at hm
  split_ifs at hm
  injection hm with hm
  rw [← hm, metricsOf_ordinary_shares]
  unfold ordinary_shares preferential_shares_amount
  ring

/-- Witness for C4 at the Scenario 1 input. -/
theorem claim4_witness :
    ((0 : ℝ) < 1000000 ∧ (0 : ℝ) < 25 ∧ (25 : ℝ) < 100 ∧
      calculations 100 1000000 50000 90 25 (1663 / 10) = .ok scenario1Metrics) ∧
    scenario1Metrics.ordinary_shares + preferential_shares_amount 1000000 25 = 1000000 :=
  ⟨⟨by norm_num, by norm_num, by norm_num, calculations_scenario1⟩,
   claim4_shares_partition 100 1000000 50000 90 25 (1663 / 10) (by norm_num) (by norm_num)
     (by norm_num) scenario1Metrics calculations_scenario1⟩

/-- C5 (amended): each of the two per-asset aggregator dictionaries carries,
besides the asset name and the pass-through fields, the SEVEN calculated
metrics Cash Dividend, Cash Dividend Yield, Preferential Shares Staker,
Scrip Dividend, Scrip Dividend Yield, Ordinary Shares Staker and Participant
Dilution; the code never adds Buyback Nominal Amount, Ordinary Shares or
Buyback Yield (and `get_assets_data` later drops Ordinary Shares Staker from
both tables). -/
theorem claim5_amended_seven_calculated_keys (a : AssetSlice) (bf ps infl : ℝ) :
    hasKeys calcKeys (display_metrics_as_formated_list a bf ps infl) = true ∧
    hasKeys calcKeys (display_metrics_as_list a bf ps infl) = true := by
  constructor
  · unfold display_metrics_as_formated_list
    cases h1 : getCol a.row "price" with
    | error e => rfl
    | ok price =>
    cases h2 : getCol a.row "circulating_supply" with
    | error e => rfl
    | ok cs =>
    cases h3 : getCol a.row "Earnings" with
    | error e => rfl
    | ok earn =>
    cases h4 : calculations price cs earn bf ps infl with
    | error e => simp only [h4]; rfl
    | ok cd => simp only [h4]; exact hasKeys_calc_append _ _ _ _ _ _ _ _
  · unfold display_metrics_as_list
    cases h1 : getCol a.row "price" with
    | error e => rfl
    | ok price =>
    cases h2 : getCol a.row "circulating_supply" with
    | error e => rfl
    | ok cs =>
    cases h3 : getCol a.row "Earnings" with
    | error e => rfl
    | ok earn =>
    cases h4 : calculations price cs earn bf ps infl with
    | error e => simp only [h4]; rfl
    | ok cd => simp only [h4]; exact hasKeys_calc_append _ _ _ _ _ _ _ _

/-- Counterexample to C5 as stated: at the Scenario 1 asset the aggregator
dictionaries carry no "Buyback Nominal Amount" key (so not all ten derived
metrics are present). -/
theorem claim5_counterexample :
    hasKeys ["Buyback Nominal Amount"]
      (display_metrics_as_formated_list scenario1Slice 90 25 (1663 / 10)) = false ∧
    hasKeys ["Buyback Nominal Amount"]
      (display_metrics_as_list scenario1Slice 90 25 (1663 / 10)) = false := by
  have h1 : getCol scenario1Slice.row "price" = .ok 100 := by
    simp [getCol, scenario1Slice, List.lookup]
  have h2 : getCol scenario1Slice.row "circulating_supply" = .ok 1000000 := by
    simp [getCol, scenario1Slice, List.lookup]
  have h3 : getCol scenario1Slice.row "Earnings" = .ok 50000 := by
    simp [getCol, scenario1Slice, List.lookup]
  constructor
  · unfold display_metrics_as_formated_list
    simp only [h1, h2, h3, calculations_scenario1]
    simp [hasKeys, scenario1Slice, List.lookup, List.filter]
  · unfold display_metrics_as_list
    simp only [h1, h2, h3, calculations_scenario1]
    simp [hasKeys, scenario1Slice, List.lookup, List.filter]

/-- C6: the formatted-mode dictionary is exactly the raw-mode dictionary
with every value pushed through `format_value` under its key (the asset-name
string passing unchanged): same keys, same error, and for every metric the
displayed value is the formatting of the plotted value — no drift between
the two modes. -/
theorem claim6_formatted_is_format_of_raw (a : AssetSlice) (bf ps infl : ℝ) :
    display_metrics_as_formated_list a bf ps infl =
      (display_metrics_as_list a bf ps infl).map
        (fun m => m.map fun p => (p.1, formatRawVal p.1 p.2)) := by
  unfold display_metrics_as_formated_list display_metrics_as_list
  cases h1 : getCol a.row "price" with
  | error e => rfl
  | ok price =>
  cases h2 : getCol a.row "circulating_supply" with
  | error e => rfl
  | ok cs =>
  cases h3 : getCol a.row "Earnings" with
  | error e => rfl
  | ok earn =>
  cases h4 : calculations price cs earn bf ps infl with
  | error e => simp only [h4, Except.map]
  | ok cd => simp [h4, Except.map, formatRawVal, List.map_map, Function.comp]

/-- C7 (amended): for every value, `format_value` applies the percentage
rule (value times 100, two decimals, a `%` suffix) exactly to the names
whose lower-casing is one of the table's spellings 'scrip_dividend_yield',
'reward_rate', 'cash dividend yield', 'scrip dividend yield',
'buyback yield', 'preferential shares staker', 'ordinary shares staker',
'participant dilution'.  Spaces and underscores are NOT interchangeable:
a spelling not in the table (e.g. "cash_dividend_yield" with underscores)
matches no entry and falls through to the Default rule. -/
theorem claim7_amended_percent_table (v : ℝ) (c : String)
    (h : lowercase c ∈ ["scrip_dividend_yield", "reward_rate", "cash dividend yield",
      "scrip dividend yield", "buyback yield", "preferential shares staker",
      "ordinary shares staker", "participant dilution"]) :
    format_value v c = formatFixed (v * 100) 2 false ++ "%" := by
  unfold format_value
  simp only [List.mem_cons, List.not_mem_nil, or_false] at h
  rcases h with h | h | h | h | h | h | h | h <;> rw [h] <;>
    rw [if_neg (by decide), if_pos (by decide)]

/-- Witness for C7 (amended) at value 1 and name "reward_rate". -/
theorem claim7_witness :
    lowercase "reward_rate" ∈ ["scrip_dividend_yield", "reward_rate", "cash dividend yield",
      "scrip dividend yield", "buyback yield", "preferential shares staker",
      "ordinary shares staker", "participant dilution"] ∧
    format_value 1 "reward_rate" = formatFixed (1 * 100) 2 false ++ "%" :=
  ⟨by decide, claim7_amended_percent_table 1 "reward_rate" (by decide)⟩

/-- Counterexample to C7 as stated: "cash_dividend_yield" (underscores) is in
the claim's percentage set up to space/underscore equivalence, but
`format_value` does not percent-format it: at value 1/2 it yields the
default-formatted "0.50", not "50.00%". -/
theorem claim7_counterexample :
    format_value (1 / 2) "cash_dividend_yield" = "0.50" ∧
    format_value (1 / 2) "cash_dividend_yield" ≠ "50.00%" := by
  have heval : format_value (1 / 2) "cash_dividend_yield" = "0.50" := by
    unfold format_value
    rw [if_neg (by decide), if_neg (by decide), if_neg (by decide)]
    have h : roundHalfEven ((1 : ℝ) / 2 * 10 ^ 2) = 50 :=
      roundHalfEven_eq_floor (by norm_num) (by norm_num)
    unfold formatFixed
    rw [if_neg (by norm_num), h]
    rfl
  refine ⟨heval, ?_⟩
  rw [heval]
  decide

/-- C8: formatting 0.0532 as "reward_rate" gives "5.32%", 1234567 as
"circulating_supply" gives "1.23M", and 3.14159 as "price" gives "$3.142". -/
theorem claim8_formatting_scenarios :
    format_value 0.0532 "reward_rate" = "5.32%" ∧
    format_value 1234567 "circulating_supply" = "1.23M" ∧
    format_value 3.14159 "price" = "$3.142" := by
  refine ⟨?_, ?_, ?_⟩
  · unfold format_value
    rw [if_neg (by decide), if_pos (by decide)]
    have h : roundHalfEven ((0.0532 : ℝ) * 100 * 10 ^ 2) = 532 :=
      roundHalfEven_eq_floor (by norm_num) (by norm_num)
    unfold formatFixed
    rw [if_neg (by norm_num), h]
    rfl
  · unfold format_value
    rw [if_neg (by decide), if_neg (by decide), if_pos (by decide)]
    have h : roundHalfEven ((1234567 : ℝ) / 1000000 * 10 ^ 2) = 123 :=
      roundHalfEven_eq_floor (by norm_num) (by norm_num)
    unfold formatFixed
    rw [if_neg (by norm_num), h]
    rfl
  · unfold format_value
    rw [if_pos (by decide)]
    have h : roundHalfEven ((3.14159 : ℝ) * 10 ^ 3) = 3141 + 1 :=
      roundHalfEven_eq_ceil (by norm_num) (by norm_num)
    unfold formatFixed
    rw [if_neg (by norm_num), h]
    rfl

/-- C9 (amended): a row whose cell is a string that does not parse as a
float (after the comma-to-period replacement) makes `clean_numeric_columns`
raise `ValueError`, and `get_assets_data` aborts with that error before any
per-asset output is produced — the offending asset is NOT skipped and the
report does not complete for the remaining assets. -/
theorem claim9_amended_bad_cell_aborts_report (t : Table) (r : String × List Cell) (s : String)
    (hr : r ∈ t.rows) (hc : Cell.str s ∈ r.2) (hp : pythonFloat (commaToDot s) = none) :
    get_assets_data t = .error PyError.valueError := by
  have h1 : cleanCell (Cell.str s) = .error PyError.valueError := by
    simp [cleanCell, hp]
  have h2 : cleanRows t.rows = .error PyError.valueError :=
    cleanRows_error_of_mem hr (cleanCells_error_of_mem hc h1)
  unfold get_assets_data clean_numeric_columns
  rw [h2]

/-- Witness for C9 (amended) at the two-asset table whose ETH earnings cell
is "abc". -/
theorem claim9_witness :
    (("ETH", [Cell.num 10, Cell.num 1000, Cell.str "abc"]) ∈ badEarningsTable.rows ∧
     Cell.str "abc" ∈ [Cell.num 10, Cell.num 1000, Cell.str "abc"] ∧
     pythonFloat (commaToDot "abc") = none) ∧
    get_assets_data badEarningsTable = .error PyError.valueError :=
  ⟨⟨List.mem_cons_of_mem _ (List.mem_cons_self _ _),
    List.mem_cons_of_mem _ (List.mem_cons_of_mem _ (List.mem_cons_self _ _)),
    by decide⟩,
   claim9_amended_bad_cell_aborts_report badEarningsTable
     ("ETH", [Cell.num 10, Cell.num 1000, Cell.str "abc"]) "abc"
     (List.mem_cons_of_mem _ (List.mem_cons_self _ _))
     (List.mem_cons_of_mem _ (List.mem_cons_of_mem _ (List.mem_cons_self _ _)))
     (by decide)⟩

/-- Counterexample to C9 as stated: on the two-asset table whose ETH
earnings cell is the non-numeric "abc", report generation does not skip ETH
and complete for BTC — it returns the `ValueError` and produces no output at
all. -/
theorem claim9_counterexample :
    get_assets_data badEarningsTable = .error PyError.valueError := by
  have h1 : cleanCell (Cell.str "abc") = .error PyError.valueError := by
    simp [cleanCell, show pythonFloat (commaToDot "abc") = none by decide]
  have h2 : cleanCells [Cell.num 10, Cell.num 1000, Cell.str "abc"] = .error PyError.valueError :=
    cleanCells_error_of_mem
      (List.mem_cons_of_mem _ (List.mem_cons_of_mem _ (List.mem_cons_self _ _))) h1
  have h3 : cleanRows badEarningsTable.rows = .error PyError.valueError :=
    cleanRows_error_of_mem (List.mem_cons_of_mem _ (List.mem_cons_self _ _)) h2
  unfold get_assets_data clean_numeric_columns
  rw [h3]

/-- C10 (amended): the internal preferential_shares_amount is negative — and
`calculations` therefore raises the math-domain error of `math.sqrt` on a
negative argument, returning no metrics dictionary — when
preferential_share_percent is strictly NEGATIVE (with positive circulating
supply and nonzero price so that the earlier cash-dividend-yield division
passes); a preferential_share_percent greater than 100 instead makes the
amount positive and `calculations` succeeds. -/
theorem claim10_amended_negative_preferential_raises (price cs e bf pf infl : ℝ)
    (hc : 0 < cs) (hpf : pf < 0) (hp : price ≠ 0) :
    calculations price cs e bf pf infl = .error PyError.mathDomainError := by
  have hpsa : preferential_shares_amount cs pf < 0 := by
    unfold preferential_shares_amount
    exact mul_neg_of_pos_of_neg hc (div_neg_of_neg_of_pos hpf (by norm_num))
  unfold calculations
  split_ifs with h1
  · exact absurd h1 (mul_ne_zero hp hpsa.ne)
  · rfl

/-- Witness for C10 (amended) at price=1, circulating_supply=1, earnings=1,
base_fee_percent=50, preferential_share_percent=-100, inflation_factor=1. -/
theorem claim10_witness :
    ((0 : ℝ) < 1 ∧ (-100 : ℝ) < 0 ∧ (1 : ℝ) ≠ 0) ∧
    calculations 1 1 1 50 (-100) 1 = .error PyError.mathDomainError :=
  ⟨⟨by norm_num, by norm_num, by norm_num⟩,
   claim10_amended_negative_preferential_raises 1 1 1 50 (-100) 1 (by norm_num) (by norm_num)
     (by norm_num)⟩

/-- Counterexample to C10 as stated: at preferential_share_percent=400 (>100)
with positive circulating supply, the preferential shares amount is 4, not
negative; `calculations` raises nothing and returns the metrics dictionary. -/
theorem claim10_counterexample :
    calculations 1 1 1 50 400 1 =
      .ok ⟨1 / 2, 1 / 2, -3, 1 / 8, 2, 1 / 2, 1 / 2, 5 / 8, -(3 / 4), 11 / 8⟩ := by
  rw [calculations_ok_of_pos 1 1 1 50 400 1 (by norm_num) (by norm_num) (by norm_num)
    (by norm_num) (by norm_num)]
  have hs : Real.sqrt ((1 : ℝ) * (400 / 100)) = 2 := by
    rw [show ((1 : ℝ) * (400 / 100)) = 2 ^ 2 by norm_num]
    exact Real.sqrt_sq (by norm_num)
  simp only [metricsOf, buyback_nominal_amount, cash_dividend, preferential_shares_amount,
    ordinary_shares, cash_dividend_yield, scrip_dividend, scrip_dividend_yield, buyback_yield,
    preferential_shares_staker, ordinary_shares_staker, participant_dilution, hs,
    Except.ok.injEq, Metrics.mk.injEq]
  refine ⟨by norm_num, by norm_num, by norm_num, by norm_num, by norm_num, by norm_num,
    by norm_num, by norm_num, by norm_num, ?_⟩
  exact abs_eval (by norm_num) (by norm_num)
